import Mathlib

/-!
Verification of the operational resilience layer of the mission-control
domain worker: the sliding-window rate limiter (rate-limiter.ts), the
deployment integrity service (ghost-recon.ts) and the health monitor
(pagerduty.ts), embedded shallowly in Lean.

External collaborators (the keyed state store, the platform hash, the
paging API) are modeled as explicit inputs: a store lookup is a function
from keys to outcomes, a store write outcome is passed in, and the set of
writes a routine performs is returned as data so that theorems can speak
about "does not write".
-/

namespace MissionControl

/-- JS Math.ceil(a / b) for integers with b > 0: ceiling division.
Lean integer division by a positive divisor is floor division, and
the ceiling of a/b equals the floor of (a + b - 1)/b. -/
def ceilDiv (a b : ℤ) : ℤ :=
  (a + b - 1) / b

/-- JS Math.min over a spread list; none models the Infinity returned on an
empty argument list. -/
def listMin : List ℤ → Option ℤ
  | [] => none
  | x :: xs =>
    match listMin xs with
    | none => some x
    | some m => some (min x m)

/-- Outcome of a KV get as seen by getWindowData: the store call may raise,
return no value, or return a stored string whose JSON.parse either throws
(modeled as error) or yields a requests list. -/
inductive KVGetOutcome where
  | storeError : KVGetOutcome
  | absent : KVGetOutcome
  | found : Except Unit (List ℤ) → KVGetOutcome

/-- RateLimitConfigSchema: windowMs, maxRequests, maxBurst, keyPrefix
(field named keyPfx here). Timestamps and durations are epoch milliseconds. -/
structure RateLimitConfig where
  windowMs : ℤ
  maxRequests : ℕ
  maxBurst : ℕ
  keyPfx : String
  deriving Repr, DecidableEq

/-- RateLimitResult from rate-limiter.ts. resetAt and retryAfter are
Option ℤ: none stands for the omitted optional field, and also for the
Infinity that Math.min of an empty sequence would produce (reachable only
when maxRequests = 0 or maxBurst = 0 on an empty window). -/
structure RateLimitResult where
  allowed : Bool
  limit : ℕ
  remaining : ℤ
  resetAt : Option ℤ
  retryAfter : Option ℤ
  deriving Repr, DecidableEq

/-- The storage key written in checkLimit. -/
def rateLimitKey (pfx identifier endpoint : String) : String :=
  pfx ++ ":" ++ identifier ++ ":" ++ endpoint

/-- getWindowData: a raising get propagates; an absent value and a value
whose JSON.parse throws are both treated as the empty window. -/
def getWindowData (g : KVGetOutcome) : Except Unit (List ℤ) :=
  match g with
  | .storeError => .error ()
  | .absent => .ok []
  | .found (.error _) => .ok []
  | .found (.ok l) => .ok l

/-- RateLimiter.checkLimit. `store` is the KV get (a function of the key),
`putOk` is whether the KV put in saveWindowData succeeds. Returns the
decision together with the window written to the store (none when no write
is attempted); a raising get or put propagates as Except.error. -/
def checkLimit (cfg : RateLimitConfig) (identifier endpoint : String) (now : ℤ)
    (store : String → KVGetOutcome) (putOk : Bool) :
    Except Unit (RateLimitResult × Option (List ℤ)) :=
  let windowStart := now - cfg.windowMs
  match getWindowData (store (rateLimitKey cfg.keyPfx identifier endpoint)) with
  | .error e => .error e
  | .ok requests =>
    let validRequests := requests.filter (fun t => windowStart < t)
    let oneSecondAgo := now - 1000
    let recentRequests := validRequests.filter (fun t => oneSecondAgo < t)
    if cfg.maxBurst ≤ recentRequests.length then
      .ok ({ allowed := false, limit := cfg.maxRequests, remaining := 0,
             resetAt := (listMin validRequests).map (fun m => m + cfg.windowMs),
             retryAfter := some 1 }, none)
    else if cfg.maxRequests ≤ validRequests.length then
      .ok ({ allowed := false, limit := cfg.maxRequests, remaining := 0,
             resetAt := (listMin validRequests).map (fun m => m + cfg.windowMs),
             retryAfter := (listMin validRequests).map
               (fun m => ceilDiv (m + cfg.windowMs - now) 1000) }, none)
    else
      let newRequests := validRequests ++ [now]
      if putOk then
        .ok ({ allowed := true, limit := cfg.maxRequests,
               remaining := (cfg.maxRequests : ℤ) - (newRequests.length : ℤ),
               resetAt := some (now + cfg.windowMs), retryAfter := none },
             some newRequests)
      else
        .error ()

/-! ### Deployment integrity service (ghost-recon.ts) -/

/-- JS `a || b` on a nullable string: null and the empty string are falsy. -/
def jsOrElse (o : Option String) (d : String) : String :=
  match o with
  | none => d
  | some s => if s = "" then d else s

structure HeartbeatMetrics where
  requests : ℤ
  errors : ℤ
  latencyP50 : ℤ
  latencyP99 : ℤ
  deriving Repr, DecidableEq

/-- HeartbeatData from ghost-recon.ts; status is one of
healthy, degraded, critical. -/
structure HeartbeatData where
  timestamp : ℤ
  service : String
  region : String
  deployment : String
  status : String
  metrics : Option HeartbeatMetrics
  deriving Repr, DecidableEq

/-- JSON.stringify of a HeartbeatData object, fields in declaration order. -/
def serializeHeartbeat (d : HeartbeatData) : String :=
  "\x7b\"timestamp\":" ++ toString d.timestamp ++
  ",\"service\":\"" ++ d.service ++
  "\",\"region\":\"" ++ d.region ++
  "\",\"deployment\":\"" ++ d.deployment ++
  "\",\"status\":\"" ++ d.status ++ "\"" ++
  (match d.metrics with
   | none => ""
   | some m =>
     ",\"metrics\":\x7b\"requests\":" ++ toString m.requests ++
     ",\"errors\":" ++ toString m.errors ++
     ",\"latencyP50\":" ++ toString m.latencyP50 ++
     ",\"latencyP99\":" ++ toString m.latencyP99 ++ "\x7d") ++
  "\x7d"

/-- GhostRecon.generateHeartbeatSignature: sha-256 of the serialized record,
concatenated with the signing key material (env.GHOST_SIGNATURE, falling
back to the literal unsigned). The platform digest (crypto.subtle) is an
external collaborator, passed in as the function sha256Hex. -/
def generateHeartbeatSignature (sha256Hex : String → String)
    (ghostSignature : Option String) (data : HeartbeatData) : String :=
  sha256Hex (serializeHeartbeat data) ++ ":" ++ jsOrElse ghostSignature "unsigned"

/-- GhostRecon.verifyHeartbeatSignature: recompute and compare for exact
string equality. -/
def verifyHeartbeatSignature (sha256Hex : String → String)
    (ghostSignature : Option String) (data : HeartbeatData)
    (signature : String) : Bool :=
  signature == generateHeartbeatSignature sha256Hex ghostSignature data

/-- Truncation to a signed 32-bit integer, the result of the JS `| 0` and
`& ` coercions. -/
def toInt32 (x : ℤ) : ℤ :=
  (x + 2 ^ 31) % 2 ^ 32 - 2 ^ 31

/-- One iteration of GhostRecon.simpleHash: hash = ((hash << 5) - hash) + c
followed by hash = hash & hash; the shift wraps to int32 and the `& `
re-truncates the exact sum to int32. -/
def simpleHashStep (h : ℤ) (c : ℕ) : ℤ :=
  toInt32 (toInt32 (h * 32) - h + c)

/-- UTF-16 code units of a string, as read by charCodeAt: code points above
0xFFFF become a surrogate pair. -/
def utf16Units : List Char → List ℕ
  | [] => []
  | c :: cs =>
    let n := c.toNat
    if n < 65536 then n :: utf16Units cs
    else (55296 + (n - 65536) / 1024) :: (56320 + (n - 65536) % 1024) :: utf16Units cs

/-- GhostRecon.simpleHash: fold the step over the code units, then Math.abs. -/
def simpleHash (s : String) : ℕ :=
  ((utf16Units s.toList).foldl simpleHashStep 0).natAbs

/-- The request fingerprint used for canary routing:
CF-Connecting-IP || X-Forwarded-For || the sentinel unknown. -/
def canaryIdentifier (cfIp xff : Option String) : String :=
  jsOrElse cfIp (jsOrElse xff "unknown")

/-- GhostRecon.shouldServeCanary. canaryPercent is a JS number constrained
to [0, 100] by the config schema, modeled as ℚ. -/
def shouldServeCanary (percent : ℚ) (cfIp xff : Option String) : Bool :=
  if percent = 0 then false
  else if percent = 100 then true
  else decide (((simpleHash (canaryIdentifier cfIp xff) % 100 : ℕ) : ℚ) < percent)

/-- The DeadManFuseLease value written by updateDeadManFuse. -/
structure FuseData where
  status : String
  timestamp : ℤ
  region : String
  ttl : ℤ
  deriving Repr, DecidableEq

/-- The fuse storage key: fuse:deploymentId with the default fallback. -/
def fuseKey (deploymentId : Option String) : String :=
  "fuse:" ++ jsOrElse deploymentId "default"

/-- GhostRecon.updateDeadManFuse: when the DEAD_MAN_FUSE binding is present,
write the lease (status, timestamp = now, resolved region, ttl 300) under
the fuse key; otherwise do nothing. Returns the write performed. -/
def updateDeadManFuse (hasFuseBinding : Bool) (deploymentId : Option String)
    (envRegion : Option String) (cfgRegion : String) (status : String)
    (now : ℤ) : Option (String × FuseData) :=
  if hasFuseBinding then
    some (fuseKey deploymentId,
      { status := status, timestamp := now,
        region := jsOrElse envRegion cfgRegion, ttl := 300 })
  else none

/-- GhostRecon.checkDeadManFuse. `stored` is the KV get: none for an absent
value, error for a value whose JSON.parse throws. An absent binding yields
true; an absent or unparsable lease yields false; otherwise the lease is
active iff status is the literal active and its age is below ttl seconds. -/
def checkDeadManFuse (hasFuseBinding : Bool)
    (stored : String → Option (Except Unit FuseData))
    (deploymentId : Option String) (now : ℤ) : Bool :=
  if hasFuseBinding = false then true
  else
    match stored (fuseKey deploymentId) with
    | none => false
    | some (.error _) => false
    | some (.ok fuse) =>
      decide (fuse.status = "active") && decide (now - fuse.timestamp < fuse.ttl * 1000)

/-- The store lookup visible after updateDeadManFuse ran against `stored`:
the written key now holds the written lease. -/
def refreshedStore (stored : String → Option (Except Unit FuseData))
    (deploymentId : Option String) (envRegion : Option String)
    (cfgRegion : String) (status : String) (now : ℤ) :
    String → Option (Except Unit FuseData) :=
  match updateDeadManFuse true deploymentId envRegion cfgRegion status now with
  | none => stored
  | some (k, f) => fun key => if key = k then some (.ok f) else stored key

/-- The status chosen by the /api/ghost/badge.svg route from the fuse check. -/
def badgeStatusOf (fuseOk : Bool) : String :=
  if fuseOk then "operational" else "outage"

/-- AuditEntry from ghost-recon.ts; result is success or failure and the
metadata map is modeled as an association list. -/
structure AuditEntry where
  id : String
  timestamp : ℤ
  action : String
  actor : String
  resource : String
  result : String
  metadata : Option (List (String × String))
  deriving Repr, DecidableEq

/-- The audit storage key audit:timestamp:id. -/
def auditKey (e : AuditEntry) : String :=
  "audit:" ++ toString e.timestamp ++ ":" ++ e.id

/-- GhostRecon.logAudit: skip silently when the AUDIT_LOG binding is absent;
otherwise build the entry (generated id, timestamp = now) and put it under
the audit key. The put outcome is passed in; the code has no try/catch
around the put, so a put failure propagates as Except.error. Returns the
write performed. -/
def logAudit (hasAuditBinding : Bool) (genId : String) (now : ℤ)
    (action actor resource result : String)
    (metadata : Option (List (String × String)))
    (putOutcome : Except Unit Unit) : Except Unit (Option (String × AuditEntry)) :=
  if hasAuditBinding = false then .ok none
  else
    match putOutcome with
    | .error e => .error e
    | .ok _ =>
      .ok (some (auditKey
        { id := genId, timestamp := now, action := action, actor := actor,
          resource := resource, result := result, metadata := metadata },
        { id := genId, timestamp := now, action := action, actor := actor,
          resource := resource, result := result, metadata := metadata }))

/-! ### Health monitor (pagerduty.ts) -/

/-- HealthCheckResult from pagerduty.ts. -/
structure HealthCheckResult where
  success : Bool
  status : Option ℤ
  signature : Option String
  verified : Option Bool
  error : Option String
  timestamp : ℤ
  deriving Repr, DecidableEq

/-- JS l.slice(-n) for n > 0: the last n elements (all of them when n
exceeds the length); slice(-0) is the whole list. -/
def jsSliceLast (n : ℕ) (l : List α) : List α :=
  if n = 0 then l else l.drop (l.length - n)

/-- JS l.slice(-a, -b) for a, b ≥ 1: the elements from index
max(length - a, 0) up to (excluding) index max(length - b, 0). -/
def jsSliceNegNeg (l : List α) (a b : ℕ) : List α :=
  (l.take (l.length - b)).drop (l.length - a)

/-- PagerDutyMonitor.shouldAlert on the stored history: false when the
history is shorter than the alert threshold, else true iff the last
alertThreshold entries all failed. -/
def shouldAlert (alertThreshold : ℕ) (history : List HealthCheckResult) : Bool :=
  if history.length < alertThreshold then false
  else (jsSliceLast alertThreshold history).all (fun check => !check.success)

/-- PagerDutyMonitor.storeHealthResult: push the result, then drop the
oldest entry once the history exceeds 10 entries. -/
def storeHealth (history : List HealthCheckResult) (r : HealthCheckResult) :
    List HealthCheckResult :=
  let pushed := history ++ [r]
  if 10 < pushed.length then pushed.drop 1 else pushed

/-- One PagerDutyMonitor.monitor tick for one target, given the stored
history and this tick's probe result. Returns the history after the store,
whether triggerIncident was called, and whether resolveIncident was
called. On a failing probe, trigger iff shouldAlert on the stored history;
on a success, resolve iff any of slice(-(alertThreshold+1), -1) of the
stored history failed. -/
def monitorStep (alertThreshold : ℕ) (history : List HealthCheckResult)
    (r : HealthCheckResult) : List HealthCheckResult × Bool × Bool :=
  let stored := storeHealth history r
  if r.success = false then
    (stored, shouldAlert alertThreshold stored, false)
  else
    (stored, false,
      (jsSliceNegNeg stored (alertThreshold + 1) 1).any (fun check => !check.success))

/-- Iterate monitorStep over a sequence of probe results, logging the
(trigger, resolve) calls of each tick. -/
def runTicks (alertThreshold : ℕ) (history : List HealthCheckResult) :
    List HealthCheckResult → List HealthCheckResult × List (Bool × Bool)
  | [] => (history, [])
  | r :: rs =>
    let s := monitorStep alertThreshold history r
    let rest := runTicks alertThreshold s.1 rs
    (rest.1, s.2 :: rest.2)

/-- A failing probe result (an HTTP 500 with its diagnostic fields). -/
def failEx : HealthCheckResult :=
  { success := false, status := some 500, signature := none,
    verified := none, error := some "HTTP 500", timestamp := 0 }

/-- A succeeding probe result with a verified signature. -/
def succEx : HealthCheckResult :=
  { success := true, status := some 200, signature := some "sig",
    verified := some true, error := none, timestamp := 0 }

/-! ### Helper lemmas -/

lemma listMin_mem : ∀ (l : List ℤ) (m : ℤ), listMin l = some m → m ∈ l := by
  intro l
  induction l with
  | nil => intro m h; simp [listMin] at h
  | cons x xs ih =>
    intro m h
    simp only [listMin] at h
    cases h2 : listMin xs with
    | none =>
      rw [h2] at h
      simp only [Option.some.injEq] at h
      simp [← h]
    | some k =>
      rw [h2] at h
      simp only [Option.some.injEq] at h
      rcases le_total x k with hk | hk
      · simp [← h, min_eq_left hk]
      · rw [← h, min_eq_right hk]
        exact List.mem_cons_of_mem x (ih k h2)

lemma listMin_exists (l : List ℤ) (hne : l ≠ []) : ∃ m, listMin l = some m ∧ m ∈ l := by
  cases l with
  | nil => exact absurd rfl hne
  | cons x xs =>
    cases h2 : listMin xs with
    | none => exact ⟨x, by simp [listMin, h2], by simp⟩
    | some k =>
      refine ⟨min x k, by simp [listMin, h2], ?_⟩
      rcases le_total x k with hk | hk
      · simp [min_eq_left hk]
      · rw [min_eq_right hk]
        exact List.mem_cons_of_mem x (listMin_mem xs k h2)

/-- A sample configuration: 1-minute window, 5 requests per window,
3-request burst cap. -/
def cfgEx : RateLimitConfig :=
  { windowMs := 60000, maxRequests := 5, maxBurst := 3, keyPfx := "rl" }

/-! ### Claims -/

/-- Claim C1: for every identifier and endpoint, with a stored window whose
surviving timestamps (those newer than now - windowMs) number fewer than
maxBurst within the last second, checkLimit (a) allows when the surviving
count is below maxRequests, returning remaining = maxRequests minus the new
surviving count and writing the new window, and (b) when the surviving
count is at least maxRequests, rejects with
retryAfter = ceil((oldestSurviving + windowMs - now)/1000), which is
positive, and performs no store write. -/
theorem checkLimit_window_rule (cfg : RateLimitConfig)
    (identifier endpoint : String) (now : ℤ) (reqs valid recent : List ℤ)
    (store : String → KVGetOutcome) (putOk : Bool)
    (hstore : store (rateLimitKey cfg.keyPfx identifier endpoint) =
      KVGetOutcome.found (Except.ok reqs))
    (hv : valid = reqs.filter (fun t => now - cfg.windowMs < t))
    (hr : recent = valid.filter (fun t => now - 1000 < t))
    (hb : recent.length < cfg.maxBurst) :
    (valid.length < cfg.maxRequests → putOk = true →
      checkLimit cfg identifier endpoint now store putOk =
        Except.ok ({ allowed := true, limit := cfg.maxRequests,
                     remaining := (cfg.maxRequests : ℤ) - ((valid.length : ℤ) + 1),
                     resetAt := some (now + cfg.windowMs), retryAfter := none },
                   some (valid ++ [now])))
    ∧ (cfg.maxRequests ≤ valid.length → 0 < cfg.maxRequests →
        ∃ m, listMin valid = some m ∧ now - cfg.windowMs < m ∧
          0 < ceilDiv (m + cfg.windowMs - now) 1000 ∧
          checkLimit cfg identifier endpoint now store putOk =
            Except.ok ({ allowed := false, limit := cfg.maxRequests,
                         remaining := 0,
                         resetAt := some (m + cfg.windowMs),
                         retryAfter := some (ceilDiv (m + cfg.windowMs - now) 1000) },
                       none)) := by
  subst hv hr
  constructor
  · intro hlt hput
    subst hput
    simp only [checkLimit, hstore, getWindowData]
    rw [if_neg (not_le.mpr hb), if_neg (not_le.mpr hlt)]
    simp [List.length_append]
  · intro hge hpos
    have hne : reqs.filter (fun t => now - cfg.windowMs < t) ≠ [] := by
      intro h
      rw [h] at hge
      simp only [List.length_nil] at hge
      omega
    obtain ⟨m, hm, hmem⟩ := listMin_exists _ hne
    have hmlt : now - cfg.windowMs < m := by
      have := List.of_mem_filter hmem
      exact of_decide_eq_true this
    refine ⟨m, hm, hmlt, ?_, ?_⟩
    · show 0 < (m + cfg.windowMs - now + 1000 - 1) / 1000
      omega
    · simp only [checkLimit, hstore, getWindowData]
      rw [if_neg (not_le.mpr hb), if_pos hge, hm]
      simp [Option.map]

/-- Witness for C1 at a concrete input: window 60000 ms, limit 5, burst 3;
two stored timestamps survive, none within the last second, so the third
request is admitted with remaining 2 and the window [50000, 90000, 100000]
is written back. -/
theorem checkLimit_window_rule_witness :
    checkLimit cfgEx "client" "api" 100000
      (fun _ => KVGetOutcome.found (Except.ok [50000, 90000])) true =
      Except.ok ({ allowed := true, limit := 5, remaining := 2,
                   resetAt := some 160000, retryAfter := none },
                 some [50000, 90000, 100000]) := by
  have h := (checkLimit_window_rule cfgEx "client" "api" 100000
    [50000, 90000] _ _ (fun _ => KVGetOutcome.found (Except.ok [50000, 90000]))
    true rfl rfl rfl (by decide)).1 (by decide) rfl
  simpa using h

/-- Claim C2: whenever at least maxBurst of the surviving timestamps lie
within the last 1000 ms, checkLimit rejects with retryAfter = 1 and writes
nothing, regardless of the window quota; in particular (second clause),
when windowMs ≥ 1000 and the store holds at least maxBurst timestamps all
within the last second, they all survive the window prune and the request
is rejected the same way. -/
theorem checkLimit_burst_rule (cfg : RateLimitConfig)
    (identifier endpoint : String) (now : ℤ) (reqs valid recent : List ℤ)
    (store : String → KVGetOutcome) (putOk : Bool)
    (hstore : store (rateLimitKey cfg.keyPfx identifier endpoint) =
      KVGetOutcome.found (Except.ok reqs))
    (hv : valid = reqs.filter (fun t => now - cfg.windowMs < t))
    (hr : recent = valid.filter (fun t => now - 1000 < t)) :
    (cfg.maxBurst ≤ recent.length →
      checkLimit cfg identifier endpoint now store putOk =
        Except.ok ({ allowed := false, limit := cfg.maxRequests, remaining := 0,
                     resetAt := (listMin valid).map (fun m => m + cfg.windowMs),
                     retryAfter := some 1 }, none))
    ∧ (1000 ≤ cfg.windowMs → (∀ t ∈ reqs, now - 1000 < t) →
        cfg.maxBurst ≤ reqs.length →
        checkLimit cfg identifier endpoint now store putOk =
          Except.ok ({ allowed := false, limit := cfg.maxRequests, remaining := 0,
                       resetAt := (listMin reqs).map (fun m => m + cfg.windowMs),
                       retryAfter := some 1 }, none)) := by
  subst hv hr
  have key : ∀ hbst : cfg.maxBurst ≤
      ((reqs.filter (fun t => now - cfg.windowMs < t)).filter
        (fun t => now - 1000 < t)).length,
      checkLimit cfg identifier endpoint now store putOk =
        Except.ok ({ allowed := false, limit := cfg.maxRequests, remaining := 0,
                     resetAt := (listMin (reqs.filter (fun t => now - cfg.windowMs < t))).map
                       (fun m => m + cfg.windowMs),
                     retryAfter := some 1 }, none) := by
    intro hbst
    simp only [checkLimit, hstore, getWindowData]
    rw [if_pos hbst]
  refine ⟨key, ?_⟩
  intro hw hall hlen
  have hval : reqs.filter (fun t => now - cfg.windowMs < t) = reqs := by
    refine List.filter_eq_self.mpr ?_
    intro a ha
    exact decide_eq_true (by have := hall a ha; omega)
  have hrec : reqs.filter (fun t => now - 1000 < t) = reqs := by
    refine List.filter_eq_self.mpr ?_
    intro a ha
    exact decide_eq_true (hall a ha)
  have := key (by rw [hval, hrec]; exact hlen)
  rw [hval] at this
  exact this

/-- Witness for C2 at a concrete input: three stored timestamps inside the
last second hit the burst cap of 3, so the request is rejected with
retryAfter 1 and nothing is written. -/
theorem checkLimit_burst_rule_witness :
    checkLimit cfgEx "client" "api" 100000
      (fun _ => KVGetOutcome.found (Except.ok [99500, 99600, 99700])) true =
      Except.ok ({ allowed := false, limit := 5, remaining := 0,
                   resetAt := some 159500, retryAfter := some 1 }, none) := by
  have h := (checkLimit_burst_rule cfgEx "client" "api" 100000
    [99500, 99600, 99700] _ _
    (fun _ => KVGetOutcome.found (Except.ok [99500, 99600, 99700]))
    true rfl rfl rfl).1 (by decide)
  simpa using h

/-- Counterexample to claim C3: with a store whose get raises, checkLimit
evaluates to an error — the exception propagates to the caller instead of
the claimed allowed=true decision (only an absent or unparsable value is
treated as an empty window; the raising get sits outside the try/catch in
getWindowData). -/
theorem checkLimit_store_error_counterexample :
    checkLimit cfgEx "client" "api" 100000 (fun _ => KVGetOutcome.storeError) true =
      Except.error () := by
  rfl

/-- Claim C3 amended: checkLimit treats an absent stored value, and a stored
value whose parse fails, as an empty window (admitting the request when the
limits permit), but an error raised by the store's get — and a put failure
on the admit path — propagates to the caller. -/
theorem checkLimit_failure_semantics (cfg : RateLimitConfig)
    (identifier endpoint : String) (now : ℤ) (putOk : Bool) :
    (∀ store : String → KVGetOutcome,
      store (rateLimitKey cfg.keyPfx identifier endpoint) = KVGetOutcome.storeError →
      checkLimit cfg identifier endpoint now store putOk = Except.error ())
    ∧ (checkLimit cfg identifier endpoint now
        (fun _ => KVGetOutcome.found (Except.error ())) putOk =
       checkLimit cfg identifier endpoint now (fun _ => KVGetOutcome.absent) putOk)
    ∧ (0 < cfg.maxBurst → 0 < cfg.maxRequests →
        checkLimit cfg identifier endpoint now (fun _ => KVGetOutcome.absent) false =
          Except.error ())
    ∧ (0 < cfg.maxBurst → 0 < cfg.maxRequests →
        checkLimit cfg identifier endpoint now (fun _ => KVGetOutcome.absent) true =
          Except.ok ({ allowed := true, limit := cfg.maxRequests,
                       remaining := (cfg.maxRequests : ℤ) - 1,
                       resetAt := some (now + cfg.windowMs), retryAfter := none },
                     some [now])) := by
  refine ⟨?_, rfl, ?_, ?_⟩
  · intro store hstore
    simp only [checkLimit, hstore, getWindowData]
  · intro hB hR
    simp only [checkLimit, getWindowData, List.filter_nil, List.length_nil]
    rw [if_neg (by omega), if_neg (by omega)]
    simp
  · intro hB hR
    simp only [checkLimit, getWindowData, List.filter_nil, List.length_nil]
    rw [if_neg (by omega), if_neg (by omega)]
    simp

/-- Witness for the amended C3 at a concrete input: with an empty window and
a failing put, checkLimit raises instead of returning its decision. -/
theorem checkLimit_failure_semantics_witness :
    checkLimit cfgEx "client" "api" 100000 (fun _ => KVGetOutcome.absent) false =
      Except.error () :=
  (checkLimit_failure_semantics cfgEx "client" "api" 100000 false).2.2.1
    (by decide) (by decide)

/-- A sample heartbeat record. -/
def hbEx : HeartbeatData :=
  { timestamp := 1000, service := "mission-control", region := "us-east-1",
    deployment := "v1", status := "healthy", metrics := none }

/-- Claim C4: under fixed key material (and a fixed platform digest), the
heartbeat signature is deterministic, verification accepts the recomputed
signature, and verification rejects every other string — it is exact
string equality with the recomputed signature. -/
theorem heartbeatSignature_rule (sha256Hex : String → String)
    (ghostSignature : Option String) (r : HeartbeatData) :
    generateHeartbeatSignature sha256Hex ghostSignature r =
      generateHeartbeatSignature sha256Hex ghostSignature r
    ∧ verifyHeartbeatSignature sha256Hex ghostSignature r
        (generateHeartbeatSignature sha256Hex ghostSignature r) = true
    ∧ ∀ s : String, s ≠ generateHeartbeatSignature sha256Hex ghostSignature r →
        verifyHeartbeatSignature sha256Hex ghostSignature r s = false := by
  refine ⟨rfl, ?_, ?_⟩
  · simp [verifyHeartbeatSignature]
  · intro s hs
    simpa [verifyHeartbeatSignature] using hs

/-- Witness for C4 at a concrete input: with the identity digest and key
material key, the string x is not the signature of the sample record and
verification rejects it. -/
theorem heartbeatSignature_rule_witness :
    ("x" : String) ≠ generateHeartbeatSignature (fun s => s) (some "key") hbEx
    ∧ verifyHeartbeatSignature (fun s => s) (some "key") hbEx "x" = false :=
  ⟨by decide, (heartbeatSignature_rule (fun s => s) (some "key") hbEx).2.2 "x" (by decide)⟩

/-- Claim C5: shouldServeCanary returns false at percent 0, true at percent
100, and otherwise tests hash(identifier) mod 100 < percent for the
unsigned simpleHash of the resolved identifier; it is deterministic in
(identifier, percent), and an absent identifier resolves to the fixed
sentinel unknown. -/
theorem shouldServeCanary_rule (percent : ℚ) (cfIp xff : Option String) :
    (percent = 0 → shouldServeCanary percent cfIp xff = false)
    ∧ (percent = 100 → shouldServeCanary percent cfIp xff = true)
    ∧ (percent ≠ 0 → percent ≠ 100 →
        (shouldServeCanary percent cfIp xff = true ↔
          ((simpleHash (canaryIdentifier cfIp xff) % 100 : ℕ) : ℚ) < percent))
    ∧ shouldServeCanary percent cfIp xff = shouldServeCanary percent cfIp xff
    ∧ canaryIdentifier none none = "unknown" := by
  refine ⟨?_, ?_, ?_, rfl, rfl⟩
  · intro h
    simp [shouldServeCanary, h]
  · intro h
    simp [shouldServeCanary, h]
  · intro h0 h100
    simp [shouldServeCanary, h0, h100]

/-- Witness for C5 at a concrete input: at percent 50 with client address
1.2.3.4, the decision is exactly the hash-mod-100 test (which evaluates to
false here, since simpleHash of the address is 1902545280 and 80 ≥ 50). -/
theorem shouldServeCanary_rule_witness :
    ((50 : ℚ) ≠ 0) ∧ ((50 : ℚ) ≠ 100)
    ∧ (shouldServeCanary 50 (some "1.2.3.4") none = true ↔
        ((simpleHash (canaryIdentifier (some "1.2.3.4") none) % 100 : ℕ) : ℚ) < 50) :=
  ⟨by norm_num, by norm_num,
    (shouldServeCanary_rule 50 (some "1.2.3.4") none).2.2.1 (by norm_num) (by norm_num)⟩

/-- Claim C6: with the fuse store bound, isFuseActive is true iff a parsable
lease is stored whose status is active and whose age is below its ttl in
milliseconds; immediately after a refresh with status active it is true;
once 300 seconds have passed without a refresh it is false; and immediately
after a refresh with status inactive it is false. -/
theorem fuse_rule (stored : String → Option (Except Unit FuseData))
    (deploymentId envRegion : Option String) (cfgRegion : String) (now : ℤ) :
    (checkDeadManFuse true stored deploymentId now = true ↔
      ∃ fuse, stored (fuseKey deploymentId) = some (Except.ok fuse) ∧
        fuse.status = "active" ∧ now - fuse.timestamp < fuse.ttl * 1000)
    ∧ (∀ t : ℤ, checkDeadManFuse true
        (refreshedStore stored deploymentId envRegion cfgRegion "active" t)
        deploymentId t = true)
    ∧ (∀ t later : ℤ, t + 300 * 1000 ≤ later →
        checkDeadManFuse true
          (refreshedStore stored deploymentId envRegion cfgRegion "active" t)
          deploymentId later = false)
    ∧ (∀ t : ℤ, checkDeadManFuse true
        (refreshedStore stored deploymentId envRegion cfgRegion "inactive" t)
        deploymentId t = false) := by
  refine ⟨?_, ?_, ?_, ?_⟩
  · cases hs : stored (fuseKey deploymentId) with
    | none => simp [checkDeadManFuse, hs]
    | some ex =>
      cases ex with
      | error e => simp [checkDeadManFuse, hs]
      | ok f => simp [checkDeadManFuse, hs, and_assoc]
  · intro t
    simp [checkDeadManFuse, refreshedStore, updateDeadManFuse]
  · intro t later hl
    simp [checkDeadManFuse, refreshedStore, updateDeadManFuse]
    omega
  · intro t
    simp [checkDeadManFuse, refreshedStore, updateDeadManFuse]

/-- Witness for C6 at a concrete input: a lease refreshed active at time 0
is inactive at time 300000 (the 300-second ttl in milliseconds has fully
elapsed). -/
theorem fuse_rule_witness :
    checkDeadManFuse true
      (refreshedStore (fun _ => none) (some "dep") (some "us-west-2") "us-east-1"
        "active" 0) (some "dep") 300000 = false :=
  (fuse_rule (fun _ => none) (some "dep") (some "us-west-2") "us-east-1"
    0).2.2.1 0 300000 (by omega)

/-- Claim C10: when the DEAD_MAN_FUSE binding is absent from the
environment, checkDeadManFuse returns true without consulting any lease,
so the badge route renders operational; with the binding present but no
lease stored, it returns false (badge outage). -/
theorem fuse_absent_binding_rule :
    (∀ (stored : String → Option (Except Unit FuseData))
       (deploymentId : Option String) (now : ℤ),
        checkDeadManFuse false stored deploymentId now = true
        ∧ badgeStatusOf (checkDeadManFuse false stored deploymentId now) = "operational")
    ∧ (∀ (deploymentId : Option String) (now : ℤ),
        checkDeadManFuse true (fun _ => none) deploymentId now = false
        ∧ badgeStatusOf (checkDeadManFuse true (fun _ => none) deploymentId now) = "outage") := by
  constructor
  · intro stored deploymentId now
    exact ⟨rfl, rfl⟩
  · intro deploymentId now
    exact ⟨rfl, rfl⟩

/-- Claim C7: shouldAlert is true iff the history holds at least
alertThreshold entries and the most recent alertThreshold entries all
failed; in particular four straight failures alert at threshold 4, while a
trailing success suppresses the alert. -/
theorem shouldAlert_rule (t : ℕ) (history : List HealthCheckResult) (ht : 0 < t) :
    (shouldAlert t history = true ↔
      t ≤ history.length ∧
        ∀ c ∈ history.drop (history.length - t), c.success = false)
    ∧ shouldAlert 4 [failEx, failEx, failEx, failEx] = true
    ∧ shouldAlert 4 [failEx, failEx, failEx, succEx] = false := by
  refine ⟨?_, by decide, by decide⟩
  have ht0 : t ≠ 0 := Nat.pos_iff_ne_zero.mp ht
  by_cases hlen : history.length < t
  · simp only [shouldAlert, if_pos hlen, Bool.false_eq_true, false_iff]
    rintro ⟨h1, _⟩
    omega
  · simp only [shouldAlert, if_neg hlen, jsSliceLast, if_neg ht0]
    rw [List.all_eq_true]
    simp only [Bool.not_eq_true']
    exact ⟨fun h => ⟨Nat.le_of_not_lt hlen, h⟩, fun h => h.2⟩

/-- Witness for C7 at a concrete input: at threshold 4, the history
fail, fail, fail, success satisfies the iff (both sides false: the last
four entries are not all failures). -/
theorem shouldAlert_rule_witness :
    shouldAlert 4 [failEx, failEx, failEx, succEx] = true ↔
      4 ≤ ([failEx, failEx, failEx, succEx] : List HealthCheckResult).length ∧
        ∀ c ∈ ([failEx, failEx, failEx, succEx] : List HealthCheckResult).drop
          (([failEx, failEx, failEx, succEx] : List HealthCheckResult).length - 4),
          c.success = false :=
  (shouldAlert_rule 4 [failEx, failEx, failEx, succEx] (by decide)).1

/-- Counterexample to claim C8: from the stored history
success, success, fail, success, a successful tick stores a fifth entry;
the entry alertThreshold+1 = 5 positions back from the end of the stored
history is its head, a success — so there was no failing streak just
before this success — yet resolveIncident is called, because the code
tests slice(-(alertThreshold+1), -1) with some-failure, not the single
entry the claim names. -/
theorem monitor_resolve_counterexample :
    (monitorStep 4 [succEx, succEx, failEx, succEx] succEx).2.2 = true
    ∧ (monitorStep 4 [succEx, succEx, failEx, succEx] succEx).1 =
        [succEx, succEx, failEx, succEx, succEx]
    ∧ ([succEx, succEx, failEx, succEx, succEx] :
        List HealthCheckResult).head? = some succEx
    ∧ succEx.success = true := by
  decide

/-- Claim C8 amended: on each tick, triggerIncident is called iff the probe
failed and shouldAlert holds on the history just stored (so a fresh run of
exactly alertThreshold failures triggers only on its last tick); on a
successful tick, resolveIncident is called iff at least one of the up to
alertThreshold entries immediately preceding the success in the stored
history is a failure (the code tests slice(-(alertThreshold+1), -1) for
some failure, not only the entry alertThreshold+1 positions back); a
fail, fail, fail, fail, success run produces exactly one trigger call (on
the fourth tick) and exactly one resolve call (on the success). -/
theorem monitor_tick_rule (t : ℕ) (history : List HealthCheckResult)
    (r : HealthCheckResult) :
    ((monitorStep t history r).1 = storeHealth history r)
    ∧ ((monitorStep t history r).2.1 = true ↔
        r.success = false ∧ shouldAlert t (storeHealth history r) = true)
    ∧ (r.success = true →
        ((monitorStep t history r).2.2 = true ↔
          ∃ c ∈ jsSliceNegNeg (storeHealth history r) (t + 1) 1, c.success = false))
    ∧ (r.success = false → (monitorStep t history r).2.2 = false)
    ∧ (runTicks 4 [] [failEx, failEx, failEx, failEx, succEx]).2 =
        [(false, false), (false, false), (false, false), (true, false), (false, true)] := by
  refine ⟨?_, ?_, ?_, ?_, by decide⟩
  · cases hr : r.success <;> simp [monitorStep, hr]
  · cases hr : r.success <;> simp [monitorStep, hr]
  · intro hs
    simp [monitorStep, hs, List.any_eq_true]
  · intro hs
    simp [monitorStep, hs]

/-- Witness for the amended C8 at a concrete input: after four failures, a
success resolves, and the iff against the slice condition holds. -/
theorem monitor_tick_rule_witness :
    (monitorStep 4 [failEx, failEx, failEx, failEx] succEx).2.2 = true ↔
      ∃ c ∈ jsSliceNegNeg (storeHealth [failEx, failEx, failEx, failEx] succEx)
        (4 + 1) 1, c.success = false :=
  (monitor_tick_rule 4 [failEx, failEx, failEx, failEx] succEx).2.2.1 (by decide)

/-- Counterexample to claim C9: with the AUDIT_LOG binding present and a
put that fails, logAudit evaluates to an error — the failure propagates to
the caller (there is no try/catch around the put and no error counter),
instead of being swallowed as claimed. -/
theorem logAudit_error_counterexample :
    logAudit true "id1" 0 "request" "1.2.3.4" "/api" "success" none
      (Except.error ()) = Except.error () := by
  rfl

/-- Claim C9 amended: logAudit silently does nothing when the audit store
binding is absent; with the binding present it writes the entry under
audit:timestamp:id when the put succeeds, and a put failure propagates to
the caller (the middleware awaits logAudit without catching). -/
theorem logAudit_rule (genId : String) (now : ℤ)
    (action actor resource result : String)
    (metadata : Option (List (String × String))) (putOutcome : Except Unit Unit) :
    (logAudit false genId now action actor resource result metadata putOutcome =
      Except.ok none)
    ∧ (putOutcome = Except.ok () →
        logAudit true genId now action actor resource result metadata putOutcome =
          Except.ok (some ("audit:" ++ toString now ++ ":" ++ genId,
            { id := genId, timestamp := now, action := action, actor := actor,
              resource := resource, result := result, metadata := metadata })))
    ∧ (putOutcome = Except.error () →
        logAudit true genId now action actor resource result metadata putOutcome =
          Except.error ()) := by
  refine ⟨rfl, ?_, ?_⟩
  · intro h
    subst h
    rfl
  · intro h
    subst h
    rfl

/-- Witness for the amended C9 at a concrete input: a successful put stores
the audit entry under its audit key. -/
theorem logAudit_rule_witness :
    logAudit true "id1" 5 "request" "1.2.3.4" "/api" "success" none
      (Except.ok ()) =
      Except.ok (some ("audit:" ++ toString (5 : ℤ) ++ ":" ++ "id1",
        { id := "id1", timestamp := 5, action := "request", actor := "1.2.3.4",
          resource := "/api", result := "success", metadata := none })) :=
  (logAudit_rule "id1" 5 "request" "1.2.3.4" "/api" "success" none
    (Except.ok ())).2.1 rfl

end MissionControl
